import Mathlib

/-!
Shallow embedding of the `lithium` SQL query-string builder (Rust).

The embedding follows the latest revision of the sources:
`src/where_cl.rs` (the WHERE/HAVING boolean tree), `src/select/mod.rs`
(the `Select` statement aggregate and its renderer), `src/common.rs`
(`ToSQL`, `Subquery`), `src/select/union.rs` (`Union`), together with the
leaf clause types (`src/distinct.rs`, `src/join.rs`, `src/order_by.rs`,
`src/select/for_cl.rs`, `src/select.rs` for `SelectType`, and the
`LimitType`/`OffsetType` enums whose constructors appear in
`src/select/mod.rs`).

Rust `&str`/`String` are both modelled as `String`; the `Pusheable`
convenience trait (one string or a fixed array of strings) is modelled by
passing a `List String`; builder methods that consume `self` and return it
become functions `Select → … → Select`.  Where a Rust method and a struct
field share a name (`distinct`, `group_by`, `order_by`, `having`, `limit`,
`offset`), the field carries a trailing underscore, since Lean cannot
declare both under one name.
-/

namespace Lithium

/-- The `ToSQL` trait of `src/common.rs`. -/
class ToSQL (α : Type) where
  to_sql : α → String

export ToSQL (to_sql)

/-! ### `src/where_cl.rs`: operators and the WHERE tree -/

/-- `Operator` from `src/where_cl.rs`. -/
inductive Operator where
  | And
  | Or
  deriving DecidableEq, Repr

/-- `Operator::to_sql`. -/
def Operator.to_sql : Operator → String
  | .And => "AND"
  | .Or => "OR"

mutual
/-- `WhereType` from `src/where_cl.rs`: either a raw predicate string or a
nested group. -/
inductive WhereType where
  | Simple (clause : String)
  | Extended (clause : Where)

/-- `Where` from `src/where_cl.rs`: an operator plus an ordered list of
child clauses. -/
inductive Where where
  | mk (operator : Operator) (clauses : List WhereType)
end

/-- Field accessor mirroring `Where.operator`. -/
def Where.operator : Where → Operator
  | .mk op _ => op

/-- Field accessor mirroring `Where.clauses`. -/
def Where.clauses : Where → List WhereType
  | .mk _ cs => cs

/-- `Where::new`. -/
def Where.new (operator : Operator) : Where := .mk operator []

/-- `Where::with_and`. -/
def Where.with_and : Where := Where.new .And

/-- `Where::with_or`. -/
def Where.with_or : Where := Where.new .Or

/-- `Where::clause`: pushes one more child clause. -/
def Where.clause : Where → WhereType → Where
  | .mk op cs, c => .mk op (cs ++ [c])

mutual
/-- `impl ToSQL for WhereType` in `src/where_cl.rs`. -/
def WhereType.to_sql : WhereType → String
  | .Simple clause => clause
  | .Extended clause => Where.to_sql clause

/-- `impl ToSQL for Where` in `src/where_cl.rs`: open paren, children
rendered and joined by `" AND "`/`" OR "`, close paren. -/
def Where.to_sql : Where → String
  | .mk op cs =>
      "(" ++ String.intercalate (" " ++ op.to_sql ++ " ") (clausesToSql cs) ++ ")"

/-- The `self.clauses.iter().map(|x| x.to_sql()).collect()` step of
`Where::to_sql`, written as explicit recursion for termination. -/
def clausesToSql : List WhereType → List String
  | [] => []
  | c :: cs => c.to_sql :: clausesToSql cs
end

instance : ToSQL WhereType := ⟨WhereType.to_sql⟩

instance : ToSQL Where := ⟨Where.to_sql⟩

/-- `impl ToSQL for &str` in `src/where_cl.rs`. -/
instance : ToSQL String := ⟨id⟩

theorem clausesToSql_eq_map (cs : List WhereType) :
    clausesToSql cs = cs.map WhereType.to_sql := by
  induction cs with
  | nil => rfl
  | cons c cs ih => simp [clausesToSql, ih]

example : Where.to_sql (Where.with_and.clause (.Simple "foo == bar")
    |>.clause (.Simple "fizz == bazz")) = "(foo == bar AND fizz == bazz)" := by
  decide

example : Where.to_sql (Where.with_or.clause
      (.Extended (Where.with_and.clause (.Simple "foo == bar") |>.clause (.Simple "fizz == bazz")))
    |>.clause
      (.Extended (Where.with_and.clause (.Simple "a == b") |>.clause (.Simple "c == d")))) =
    "((foo == bar AND fizz == bazz) OR (a == b AND c == d))" := by
  decide

/-! ### Leaf clause types -/

/-- `SelectType` (`src/select.rs`, re-exported by `src/select/mod.rs`);
`Specific` holds the column list built up by `Select::columns`. -/
inductive SelectType where
  | All
  | Specific (columns : List String)
  deriving DecidableEq, Repr

/-- `SelectType::to_sql`. -/
def SelectType.to_sql : SelectType → String
  | .All => "*"
  | .Specific clauses => String.intercalate ", " clauses

/-- `DistinctType` from `src/distinct.rs`. -/
inductive DistinctType where
  | Empty
  | Simple
  | Extended (columns : List String)
  deriving DecidableEq, Repr

/-- `JoinType` from `src/join.rs`. -/
inductive JoinType where
  | Inner
  | Left
  | Right
  | Outer
  deriving DecidableEq, Repr

/-- `JoinType::to_sql`. -/
def JoinType.to_sql : JoinType → String
  | .Inner => "INNER"
  | .Left => "LEFT"
  | .Right => "RIGHT"
  | .Outer => "OUTER"

/-- `Join` from `src/join.rs`. -/
structure Join where
  join_type : JoinType
  target : String
  clause : String
  deriving DecidableEq, Repr

/-- `Join::to_sql`. -/
def Join.to_sql (j : Join) : String :=
  j.join_type.to_sql ++ " " ++ "JOIN" ++ " " ++ j.target ++ " " ++ "ON" ++ " " ++ j.clause

/-- `Ordering` from `src/order_by.rs`. -/
inductive Ordering where
  | Ascending
  | Descending
  deriving DecidableEq, Repr

/-- `Ordering::to_sql`. -/
def Ordering.to_sql : Ordering → String
  | .Ascending => "ASC"
  | .Descending => "DESC"

/-- `OrderBy` from `src/order_by.rs`. -/
structure OrderBy where
  ordering : Ordering
  order_by : String
  deriving DecidableEq, Repr

/-- `OrderBy::to_sql`. -/
def OrderBy.to_sql (o : OrderBy) : String :=
  o.order_by ++ " " ++ o.ordering.to_sql

/-- `LimitType`: `Empty` or a literal limit text (constructors as used in
`src/select/mod.rs`). -/
inductive LimitType where
  | Empty
  | Specified (value : String)
  deriving DecidableEq, Repr

/-- `OffsetType`: `Empty` or a literal offset text (constructors as used in
`src/select/mod.rs`). -/
inductive OffsetType where
  | Empty
  | Specified (value : String)
  deriving DecidableEq, Repr

/-- `ForMode` from `src/select/for_cl.rs`. -/
inductive ForMode where
  | Update
  | Share
  deriving DecidableEq, Repr

/-- `ForMode::to_sql`. -/
def ForMode.to_sql : ForMode → String
  | .Update => "UPDATE"
  | .Share => "SHARE"

/-- `For` from `src/select/for_cl.rs`. -/
structure For where
  mode : ForMode
  tables : List String
  nowait : Bool
  deriving DecidableEq, Repr

/-- `For::new`. -/
def For.new (mode : ForMode) : For := ⟨mode, [], false⟩

/-- `For::update`. -/
def For.update : For := For.new .Update

/-- `For::share`. -/
def For.share : For := For.new .Share

/-- `For::table`: appends tables. -/
def For.table (f : For) (tables : List String) : For :=
  { f with tables := f.tables ++ tables }

/-- `For::nowait` (the builder method; shadows the field read). -/
def For.set_nowait (f : For) : For := { f with nowait := true }

/-- `For::to_sql`. -/
def For.to_sql (f : For) : String :=
  "FOR" ++ " " ++ f.mode.to_sql
    ++ (if f.tables.isEmpty then "" else " " ++ "OF" ++ " " ++ String.intercalate ", " f.tables)
    ++ (if f.nowait then " " ++ "NOWAIT" else "")

/-- `ForType` from `src/select/for_cl.rs`. -/
inductive ForType where
  | Empty
  | Specified (for_clause : For)
  deriving DecidableEq, Repr

/-! ### `src/common.rs`: `Subquery` -/

/-- `Subquery` from `src/common.rs`: the rendered text of a query, wrapped
in parentheses at construction time.  The field `alias` is named `alias_`
because `alias` is a reserved word here. -/
structure Subquery where
  query : String
  alias_ : Option String
  deriving DecidableEq, Repr

/-- `Subquery::new`: captures `"(" + query + ")"`. -/
def Subquery.new (query : String) : Subquery :=
  ⟨"(" ++ query ++ ")", none⟩

/-- `Subquery::with_alias`: appends `" AS " + alias` to the captured text. -/
def Subquery.with_alias (self : Subquery) (alias_ : String) : Subquery :=
  { self with alias_ := some alias_, query := self.query ++ " AS " ++ alias_ }

/-- `impl AsStr for &Subquery` in `src/common.rs`: passing a subquery where
a string is expected reads its `query` field. -/
def Subquery.as_str (self : Subquery) : String := self.query

/-! ### `src/select/mod.rs`: the `Select` statement -/

/-- `Select` from `src/select/mod.rs`.  Fields whose Rust name collides
with a builder method of the same struct carry a trailing underscore
(`from` additionally because it is a keyword). -/
structure Select where
  select_type : SelectType
  distinct_ : DistinctType
  from_table : String
  joins : List Join
  group_by_ : List String
  order_by_ : List OrderBy
  where_cl : List WhereType
  having_ : List WhereType
  limit_ : LimitType
  offset_ : OffsetType
  for_cl : ForType

/-- `Select::from`: the starting constructor, with all clauses empty. -/
def Select.from_ (from_table : String) : Select :=
  { select_type := .All
    distinct_ := .Empty
    from_table := from_table
    joins := []
    group_by_ := []
    order_by_ := []
    where_cl := []
    having_ := []
    limit_ := .Empty
    offset_ := .Empty
    for_cl := .Empty }

/-- `Select::select_all`. -/
def Select.select_all (self : Select) : Select :=
  { self with select_type := .All }

/-- `Select::columns`: starts a `Specific` column list, or appends to an
existing one. -/
def Select.columns (self : Select) (input_columns : List String) : Select :=
  match self.select_type with
  | .All => { self with select_type := .Specific input_columns }
  | .Specific cs => { self with select_type := .Specific (cs ++ input_columns) }

/-- `Select::distinct`: sets the `Simple` distinct state. -/
def Select.distinct (self : Select) : Select :=
  { self with distinct_ := .Simple }

/-- `Select::distinct_on`: from `Empty`/`Simple` starts a fresh `Extended`
column list; from `Extended` appends. -/
def Select.distinct_on (self : Select) (input_columns : List String) : Select :=
  match self.distinct_ with
  | .Empty | .Simple => { self with distinct_ := .Extended input_columns }
  | .Extended cs => { self with distinct_ := .Extended (cs ++ input_columns) }

/-- `Select::remove_distinct`. -/
def Select.remove_distinct (self : Select) : Select :=
  { self with distinct_ := .Empty }

/-- `Select::push_join` (private helper). -/
def Select.push_join (self : Select) (join_type : JoinType) (target : String)
    (clause : String) : Select :=
  { self with joins := self.joins ++ [⟨join_type, target, clause⟩] }

/-- `Select::join` (`INNER JOIN`). -/
def Select.join (self : Select) (target : String) (clause : String) : Select :=
  self.push_join .Inner target clause

/-- `Select::left_join`. -/
def Select.left_join (self : Select) (target : String) (clause : String) : Select :=
  self.push_join .Left target clause

/-- `Select::right_join`. -/
def Select.right_join (self : Select) (target : String) (clause : String) : Select :=
  self.push_join .Right target clause

/-- `Select::outer_join`. -/
def Select.outer_join (self : Select) (target : String) (clause : String) : Select :=
  self.push_join .Outer target clause

/-- `Select::group_by`: appends columns. -/
def Select.group_by (self : Select) (columns : List String) : Select :=
  { self with group_by_ := self.group_by_ ++ columns }

/-- `Select::order_by`: appends one ordering term. -/
def Select.order_by (self : Select) (field : String) (ordering : Ordering) : Select :=
  { self with order_by_ := self.order_by_ ++ [⟨ordering, field⟩] }

/-- `Select::filter`: pushes one more top-level WHERE condition. -/
def Select.filter (self : Select) (clause : WhereType) : Select :=
  { self with where_cl := self.where_cl ++ [clause] }

/-- `Select::having`: pushes one more top-level HAVING condition. -/
def Select.having (self : Select) (clause : WhereType) : Select :=
  { self with having_ := self.having_ ++ [clause] }

/-- `Select::limit`: replaces the LIMIT clause. -/
def Select.limit (self : Select) (value : String) : Select :=
  { self with limit_ := .Specified value }

/-- `Select::remove_limit`. -/
def Select.remove_limit (self : Select) : Select :=
  { self with limit_ := .Empty }

/-- `Select::offset`: replaces the OFFSET clause. -/
def Select.offset (self : Select) (value : String) : Select :=
  { self with offset_ := .Specified value }

/-- `Select::remove_offset`. -/
def Select.remove_offset (self : Select) : Select :=
  { self with offset_ := .Empty }

/-- `Select::for_`: replaces the FOR clause. -/
def Select.for_ (self : Select) (for_cl : For) : Select :=
  { self with for_cl := .Specified for_cl }

/-- `Select::remove_for`. -/
def Select.remove_for (self : Select) : Select :=
  { self with for_cl := .Empty }

/-- `impl ToSQL for Select` in `src/select/mod.rs`: fixed-order rendering
of each populated clause, transcribed push by push. -/
def Select.to_sql (self : Select) : String :=
  let rv := "SELECT"
  let rv := rv ++
    match self.distinct_ with
    | .Empty => ""
    | .Simple => " " ++ "DISTINCT"
    | .Extended clauses => " " ++ "DISTINCT ON" ++ " " ++ "(" ++ String.intercalate ", " clauses ++ ")"
  let rv := rv ++ " " ++ self.select_type.to_sql ++ " " ++ "FROM" ++ " " ++ self.from_table
  let rv := self.joins.foldl (fun acc j => acc ++ " " ++ j.to_sql) rv
  let rv := if self.where_cl.isEmpty then rv else
    rv ++ " " ++ "WHERE" ++ " "
      ++ String.intercalate " AND " (self.where_cl.map WhereType.to_sql)
  let rv := if self.group_by_.isEmpty then rv else
    rv ++ " " ++ "GROUP BY" ++ " " ++ String.intercalate ", " self.group_by_
  let rv := if self.having_.isEmpty then rv else
    rv ++ " " ++ "HAVING" ++ " "
      ++ String.intercalate " AND " (self.having_.map WhereType.to_sql)
  let rv := if self.order_by_.isEmpty then rv else
    rv ++ " " ++ "ORDER BY" ++ " "
      ++ String.intercalate ", " (self.order_by_.map OrderBy.to_sql)
  let rv := rv ++
    match self.limit_ with
    | .Empty => ""
    | .Specified clause => " " ++ "LIMIT" ++ " " ++ clause
  let rv := rv ++
    match self.offset_ with
    | .Empty => ""
    | .Specified clause => " " ++ "OFFSET" ++ " " ++ clause
  let rv := rv ++
    match self.for_cl with
    | .Empty => ""
    | .Specified for_clause => " " ++ for_clause.to_sql
  rv

instance : ToSQL Select := ⟨Select.to_sql⟩

/-- `Select::as_subquery`: renders now and wraps in a `Subquery`. -/
def Select.as_subquery (self : Select) : Subquery :=
  Subquery.new self.to_sql

example : (Select.from_ "test_table").to_sql = "SELECT * FROM test_table" := by decide

example : ((Select.from_ "test_table").columns ["foo"] |>.columns ["bar"]).to_sql =
    "SELECT foo, bar FROM test_table" := by decide

/-! ### `src/select/union.rs`: `Union` -/

/-- `UnionMode` from `src/select/union.rs`. -/
inductive UnionMode where
  | Simple
  | All
  deriving DecidableEq, Repr

/-- `Union` from `src/select/union.rs`: generic over any two `ToSQL` sides. -/
structure Union (L R : Type) where
  left : L
  right : R
  mode : UnionMode

/-- `Union::new`. -/
def Union.new {L R : Type} (mode : UnionMode) (left : L) (right : R) : Union L R :=
  ⟨left, right, mode⟩

/-- `impl ToSQL for Union` in `src/select/union.rs`. -/
def Union.to_sql {L R : Type} [ToSQL L] [ToSQL R] (self : Union L R) : String :=
  let rv := ToSQL.to_sql self.left ++ " " ++ "UNION" ++ " "
  let rv := rv ++
    match self.mode with
    | .All => "ALL" ++ " "
    | .Simple => ""
  rv ++ ToSQL.to_sql self.right

instance {L R : Type} [ToSQL L] [ToSQL R] : ToSQL (Union L R) := ⟨Union.to_sql⟩

example :
    (Union.new .All (Select.from_ "a") (Select.from_ "b")).to_sql =
      "SELECT * FROM a UNION ALL SELECT * FROM b" := by decide

/-! ### Clause fragments of the `Select` renderer

Each fragment function names the text one conditional step of
`Select::to_sql` appends to the accumulator `rv`; an absent clause
contributes the empty string. -/

/-- Text appended by the `match self.distinct` step of `Select::to_sql`. -/
def distinctFrag : DistinctType → String
  | .Empty => ""
  | .Simple => " " ++ "DISTINCT"
  | .Extended clauses =>
      " " ++ "DISTINCT ON" ++ " " ++ "(" ++ String.intercalate ", " clauses ++ ")"

/-- Text appended by the join loop of `Select::to_sql`. -/
def joinsFrag : List Join → String
  | [] => ""
  | j :: js => " " ++ j.to_sql ++ joinsFrag js

/-- Text appended by the WHERE step of `Select::to_sql`. -/
def whereFrag (cs : List WhereType) : String :=
  if cs.isEmpty then "" else
    " " ++ "WHERE" ++ " " ++ String.intercalate " AND " (cs.map WhereType.to_sql)

/-- Text appended by the GROUP BY step of `Select::to_sql`. -/
def groupByFrag (cols : List String) : String :=
  if cols.isEmpty then "" else
    " " ++ "GROUP BY" ++ " " ++ String.intercalate ", " cols

/-- Text appended by the HAVING step of `Select::to_sql`. -/
def havingFrag (cs : List WhereType) : String :=
  if cs.isEmpty then "" else
    " " ++ "HAVING" ++ " " ++ String.intercalate " AND " (cs.map WhereType.to_sql)

/-- Text appended by the ORDER BY step of `Select::to_sql`. -/
def orderByFrag (os : List OrderBy) : String :=
  if os.isEmpty then "" else
    " " ++ "ORDER BY" ++ " " ++ String.intercalate ", " (os.map OrderBy.to_sql)

/-- Text appended by the `match self.limit` step of `Select::to_sql`. -/
def limitFrag : LimitType → String
  | .Empty => ""
  | .Specified v => " " ++ "LIMIT" ++ " " ++ v

/-- Text appended by the `match self.offset` step of `Select::to_sql`. -/
def offsetFrag : OffsetType → String
  | .Empty => ""
  | .Specified v => " " ++ "OFFSET" ++ " " ++ v

/-- Text appended by the `match self.for_cl` step of `Select::to_sql`. -/
def forFrag : ForType → String
  | .Empty => ""
  | .Specified f => " " ++ f.to_sql

theorem joins_foldl (js : List Join) (rv : String) :
    js.foldl (fun acc j => acc ++ " " ++ j.to_sql) rv = rv ++ joinsFrag js := by
  induction js generalizing rv with
  | nil => simp [joinsFrag]
  | cons j js ih =>
      rw [List.foldl_cons, ih]
      simp [joinsFrag, String.append_assoc]

theorem where_step (cs : List WhereType) (rv : String) :
    (if cs.isEmpty then rv else
      rv ++ " " ++ "WHERE" ++ " " ++ String.intercalate " AND " (cs.map WhereType.to_sql)) =
    rv ++ whereFrag cs := by
  cases h : cs.isEmpty <;> simp [whereFrag, h, String.append_assoc]

theorem group_step (cols : List String) (rv : String) :
    (if cols.isEmpty then rv else
      rv ++ " " ++ "GROUP BY" ++ " " ++ String.intercalate ", " cols) =
    rv ++ groupByFrag cols := by
  cases h : cols.isEmpty <;> simp [groupByFrag, h, String.append_assoc]

theorem having_step (cs : List WhereType) (rv : String) :
    (if cs.isEmpty then rv else
      rv ++ " " ++ "HAVING" ++ " " ++ String.intercalate " AND " (cs.map WhereType.to_sql)) =
    rv ++ havingFrag cs := by
  cases h : cs.isEmpty <;> simp [havingFrag, h, String.append_assoc]

theorem order_step (os : List OrderBy) (rv : String) :
    (if os.isEmpty then rv else
      rv ++ " " ++ "ORDER BY" ++ " " ++ String.intercalate ", " (os.map OrderBy.to_sql)) =
    rv ++ orderByFrag os := by
  cases h : os.isEmpty <;> simp [orderByFrag, h, String.append_assoc]

/-- `Select::to_sql` is the fixed-order concatenation of its clause
fragments. -/
theorem Select.to_sql_decomp (s : Select) :
    s.to_sql = "SELECT" ++ distinctFrag s.distinct_ ++ " " ++ s.select_type.to_sql
      ++ " " ++ "FROM" ++ " " ++ s.from_table ++ joinsFrag s.joins
      ++ whereFrag s.where_cl ++ groupByFrag s.group_by_ ++ havingFrag s.having_
      ++ orderByFrag s.order_by_ ++ limitFrag s.limit_ ++ offsetFrag s.offset_
      ++ forFrag s.for_cl := by
  obtain ⟨st, d, ft, js, gb, ob, wc, hv, lm, off, fc⟩ := s
  simp only [Select.to_sql]
  rw [joins_foldl, where_step, group_step, having_step, order_step]
  cases d <;> cases lm <;> cases off <;> cases fc <;>
    simp [distinctFrag, limitFrag, offsetFrag, forFrag, String.append_assoc]

/-- The column list currently held by a `SelectType` (`All` holds none). -/
def currentColumns : SelectType → List String
  | .All => []
  | .Specific cs => cs

/-- The `DISTINCT ON` column list currently held by a `DistinctType`
(`Empty` and `Simple` hold none). -/
def currentOnColumns : DistinctType → List String
  | .Empty => []
  | .Simple => []
  | .Extended cs => cs

/-- Everything `Select::to_sql` emits before a WHERE clause. -/
def preWhere (s : Select) : String :=
  "SELECT" ++ distinctFrag s.distinct_ ++ " " ++ s.select_type.to_sql
    ++ " " ++ "FROM" ++ " " ++ s.from_table ++ joinsFrag s.joins

/-- Everything `Select::to_sql` emits after a WHERE clause. -/
def postWhere (s : Select) : String :=
  groupByFrag s.group_by_ ++ havingFrag s.having_ ++ orderByFrag s.order_by_
    ++ limitFrag s.limit_ ++ offsetFrag s.offset_ ++ forFrag s.for_cl

/-- Everything `Select::to_sql` emits before a HAVING clause. -/
def preHaving (s : Select) : String :=
  preWhere s ++ whereFrag s.where_cl ++ groupByFrag s.group_by_

/-- Everything `Select::to_sql` emits after a HAVING clause. -/
def postHaving (s : Select) : String :=
  orderByFrag s.order_by_ ++ limitFrag s.limit_ ++ offsetFrag s.offset_
    ++ forFrag s.for_cl

/-- One call of `to_sql` through the shared reference `&self`: it returns
the rendered text and leaves the statement value as it was. -/
def Select.renderCall (self : Select) : String × Select :=
  (self.to_sql, self)

/-! ### Claims -/

/-- C1: rendering `Where(op, clauses)` yields an opening parenthesis, the
renderings of the children in order joined by `" AND "`/`" OR "`, and a
closing parenthesis; a single-child group still renders as
`"(" ++ render child ++ ")"`, and a `Simple` predicate renders its text
verbatim. -/
theorem C1_group_rendering :
    (∀ (op : Operator) (cs : List WhereType),
        Where.to_sql (.mk op cs) =
          "(" ++ String.intercalate (" " ++ op.to_sql ++ " ")
            (cs.map WhereType.to_sql) ++ ")")
    ∧ (∀ (op : Operator) (c : WhereType),
        Where.to_sql (.mk op [c]) = "(" ++ c.to_sql ++ ")")
    ∧ (∀ t : String, WhereType.to_sql (.Simple t) = t)
    ∧ Operator.to_sql .And = "AND" ∧ Operator.to_sql .Or = "OR" := by
  refine ⟨fun op cs => ?_, fun op c => ?_, fun t => rfl, rfl, rfl⟩
  · rw [Where.to_sql, clausesToSql_eq_map]
  · rfl

/-- C4: a group with zero children renders to exactly `"()"` for either
operator, with no error and no special-casing. -/
theorem C4_empty_group_renders_unit : ∀ op : Operator, Where.to_sql (.mk op []) = "()" :=
  fun _ => rfl

/-- C5: calling a scalar-clause setter twice (limit, offset, the FOR
clause) leaves the statement exactly as if only the second call had been
made; the operations are total, so no error is possible. -/
theorem C5_scalar_last_write_wins :
    ∀ (s : Select) (v1 v2 : String) (f1 f2 : For),
      (s.limit v1).limit v2 = s.limit v2
      ∧ (s.offset v1).offset v2 = s.offset v2
      ∧ (s.for_ f1).for_ f2 = s.for_ f2 :=
  fun _ _ _ _ _ => ⟨rfl, rfl, rfl⟩

/-- C8: every builder operation rewrites exactly one field of the
statement (appending to it or replacing it) and leaves every other field
identical, stated as a record update of the original statement. -/
theorem C8_builder_frame :
    (∀ (s : Select) (cs : List String),
        s.columns cs = { s with select_type := .Specific (currentColumns s.select_type ++ cs) })
    ∧ (∀ s : Select, s.distinct = { s with distinct_ := .Simple })
    ∧ (∀ (s : Select) (cs : List String),
        s.distinct_on cs = { s with distinct_ := .Extended (currentOnColumns s.distinct_ ++ cs) })
    ∧ (∀ (s : Select) (t c : String),
        s.join t c = { s with joins := s.joins ++ [⟨.Inner, t, c⟩] })
    ∧ (∀ (s : Select) (t c : String),
        s.left_join t c = { s with joins := s.joins ++ [⟨.Left, t, c⟩] })
    ∧ (∀ (s : Select) (t c : String),
        s.right_join t c = { s with joins := s.joins ++ [⟨.Right, t, c⟩] })
    ∧ (∀ (s : Select) (t c : String),
        s.outer_join t c = { s with joins := s.joins ++ [⟨.Outer, t, c⟩] })
    ∧ (∀ (s : Select) (cs : List String),
        s.group_by cs = { s with group_by_ := s.group_by_ ++ cs })
    ∧ (∀ (s : Select) (f : String) (o : Ordering),
        s.order_by f o = { s with order_by_ := s.order_by_ ++ [⟨o, f⟩] })
    ∧ (∀ (s : Select) (c : WhereType),
        s.filter c = { s with where_cl := s.where_cl ++ [c] })
    ∧ (∀ (s : Select) (c : WhereType),
        s.having c = { s with having_ := s.having_ ++ [c] })
    ∧ (∀ (s : Select) (v : String), s.limit v = { s with limit_ := .Specified v })
    ∧ (∀ (s : Select) (v : String), s.offset v = { s with offset_ := .Specified v })
    ∧ (∀ (s : Select) (f : For), s.for_ f = { s with for_cl := .Specified f }) := by
  refine ⟨fun s cs => ?_, fun _ => rfl, fun s cs => ?_, fun _ _ _ => rfl, fun _ _ _ => rfl,
    fun _ _ _ => rfl, fun _ _ _ => rfl, fun _ _ => rfl, fun _ _ _ => rfl, fun _ _ => rfl,
    fun _ _ => rfl, fun _ _ => rfl, fun _ _ => rfl, fun _ _ => rfl⟩
  · cases h : s.select_type <;> simp [Select.columns, currentColumns, h]
  · cases h : s.distinct_ <;> simp [Select.distinct_on, currentOnColumns, h]

/-- C9: `to_sql` through `&self` is a pure read: calling it twice on the
same statement value yields identical text, and the call does not modify
the statement. -/
theorem C9_render_pure :
    ∀ s : Select, s.renderCall.2 = s ∧ (s.renderCall.2).renderCall.1 = s.renderCall.1 :=
  fun _ => ⟨rfl, rfl⟩

/-- C10: `distinct_on` on an `Empty` or `Simple` distinct state starts a
fresh `Extended` list holding only the new columns (a preceding
`distinct()` call is silently lost); on an `Extended` state it appends. -/
theorem C10_distinct_on_states :
    (∀ (s : Select) (cs : List String), s.distinct_ = .Empty →
        (s.distinct_on cs).distinct_ = .Extended cs)
    ∧ (∀ (s : Select) (cs : List String), s.distinct_ = .Simple →
        (s.distinct_on cs).distinct_ = .Extended cs)
    ∧ (∀ (s : Select) (cs : List String),
        ((s.distinct).distinct_on cs).distinct_ = .Extended cs)
    ∧ (∀ (s : Select) (old cs : List String), s.distinct_ = .Extended old →
        (s.distinct_on cs).distinct_ = .Extended (old ++ cs)) := by
  refine ⟨fun s cs h => ?_, fun s cs h => ?_, fun s cs => ?_, fun s old cs h => ?_⟩
  · simp [Select.distinct_on, h]
  · simp [Select.distinct_on, h]
  · simp [Select.distinct, Select.distinct_on]
  · simp [Select.distinct_on, h]

/-- Witness for C10 at concrete inputs. -/
theorem C10_distinct_on_states_witness :
    ((Select.from_ "t").distinct_ = .Empty
      ∧ ((Select.from_ "t").distinct_on ["a"]).distinct_ = .Extended ["a"])
    ∧ (((Select.from_ "t").distinct).distinct_ = .Simple
      ∧ (((Select.from_ "t").distinct).distinct_on ["a"]).distinct_ = .Extended ["a"])
    ∧ (((Select.from_ "t").distinct_on ["a"]).distinct_ = .Extended ["a"]
      ∧ (((Select.from_ "t").distinct_on ["a"]).distinct_on ["b"]).distinct_
          = .Extended (["a"] ++ ["b"])) :=
  ⟨⟨rfl, C10_distinct_on_states.1 (Select.from_ "t") ["a"] rfl⟩,
   ⟨rfl, C10_distinct_on_states.2.1 ((Select.from_ "t").distinct) ["a"] rfl⟩,
   ⟨rfl, C10_distinct_on_states.2.2.2 ((Select.from_ "t").distinct_on ["a"]) ["a"] ["b"] rfl⟩⟩

/-- C2: with joins, where, group by, having, order by, limit, offset and
the locking clause all populated, the rendered text is exactly the
fixed-order concatenation SELECT, FROM, the joins in insertion order,
WHERE, GROUP BY, HAVING, ORDER BY, LIMIT, OFFSET, FOR, each clause
preceded by a single space; this depends only on the field values, never
on the order builder calls were made in, and an absent clause contributes
the empty string to the unconditional decomposition. -/
theorem C2_clause_order :
    (∀ s : Select,
        s.to_sql = "SELECT" ++ distinctFrag s.distinct_ ++ " " ++ s.select_type.to_sql
          ++ " " ++ "FROM" ++ " " ++ s.from_table ++ joinsFrag s.joins
          ++ whereFrag s.where_cl ++ groupByFrag s.group_by_ ++ havingFrag s.having_
          ++ orderByFrag s.order_by_ ++ limitFrag s.limit_ ++ offsetFrag s.offset_
          ++ forFrag s.for_cl)
    ∧ (distinctFrag .Empty = "" ∧ joinsFrag [] = "" ∧ whereFrag [] = ""
        ∧ groupByFrag [] = "" ∧ havingFrag [] = "" ∧ orderByFrag [] = ""
        ∧ limitFrag .Empty = "" ∧ offsetFrag .Empty = "" ∧ forFrag .Empty = "")
    ∧ (∀ (s : Select) (l o : String) (f : For),
        s.joins.isEmpty = false →
        s.where_cl.isEmpty = false →
        s.group_by_.isEmpty = false →
        s.having_.isEmpty = false →
        s.order_by_.isEmpty = false →
        s.limit_ = .Specified l →
        s.offset_ = .Specified o →
        s.for_cl = .Specified f →
        s.to_sql = "SELECT" ++ distinctFrag s.distinct_ ++ " " ++ s.select_type.to_sql
          ++ " " ++ "FROM" ++ " " ++ s.from_table
          ++ joinsFrag s.joins
          ++ (" " ++ "WHERE" ++ " "
              ++ String.intercalate " AND " (s.where_cl.map WhereType.to_sql))
          ++ (" " ++ "GROUP BY" ++ " " ++ String.intercalate ", " s.group_by_)
          ++ (" " ++ "HAVING" ++ " "
              ++ String.intercalate " AND " (s.having_.map WhereType.to_sql))
          ++ (" " ++ "ORDER BY" ++ " "
              ++ String.intercalate ", " (s.order_by_.map OrderBy.to_sql))
          ++ (" " ++ "LIMIT" ++ " " ++ l)
          ++ (" " ++ "OFFSET" ++ " " ++ o)
          ++ (" " ++ ("FOR" ++ " " ++ f.mode.to_sql
              ++ (if f.tables.isEmpty then "" else
                    " " ++ "OF" ++ " " ++ String.intercalate ", " f.tables)
              ++ (if f.nowait then " " ++ "NOWAIT" else "")))) := by
  refine ⟨Select.to_sql_decomp, ⟨rfl, rfl, rfl, rfl, rfl, rfl, rfl, rfl, rfl⟩, ?_⟩
  intro s l o f hj hw hg hh ho hl hof hf
  rw [Select.to_sql_decomp]
  rw [hl, hof, hf]
  simp only [whereFrag, groupByFrag, havingFrag, orderByFrag, hw, hg, hh, ho,
    limitFrag, offsetFrag, forFrag, For.to_sql, Bool.false_eq_true, if_false]

/-- The end-to-end scenario statement, built with the builder calls in an
order different from the rendering order. -/
def scenarioSelect : Select :=
  (((((((((((((Select.from_ "test_table").limit "10").offset "5").for_
    ((For.update.table ["foo", "bar"]).set_nowait)).order_by "bar" .Descending).order_by
    "foo" .Ascending).having (.Extended ((Where.with_and.clause (.Simple "foo = bar")).clause
    (.Simple "lala = blah")))).filter (.Extended ((Where.with_and.clause
    (.Simple "foo = bar")).clause (.Simple "lala = blah")))).group_by ["foo", "bar"]).join
    "bar_table" "1 = 1").left_join "bazz_table" "2 = 2").distinct_on ["fizz", "bazz"]).columns
    ["foo", "bar"])

set_option maxRecDepth 4000 in
/-- Witness for C2: the populated-statement decomposition applied to the
concrete scenario statement. -/
theorem C2_clause_order_witness :
    scenarioSelect.joins.isEmpty = false
    ∧ scenarioSelect.where_cl.isEmpty = false
    ∧ scenarioSelect.group_by_.isEmpty = false
    ∧ scenarioSelect.having_.isEmpty = false
    ∧ scenarioSelect.order_by_.isEmpty = false
    ∧ scenarioSelect.limit_ = .Specified "10"
    ∧ scenarioSelect.offset_ = .Specified "5"
    ∧ scenarioSelect.for_cl = .Specified ((For.update.table ["foo", "bar"]).set_nowait)
    ∧ scenarioSelect.to_sql = "SELECT" ++ distinctFrag scenarioSelect.distinct_ ++ " "
        ++ scenarioSelect.select_type.to_sql
        ++ " " ++ "FROM" ++ " " ++ scenarioSelect.from_table
        ++ joinsFrag scenarioSelect.joins
        ++ (" " ++ "WHERE" ++ " "
            ++ String.intercalate " AND " (scenarioSelect.where_cl.map WhereType.to_sql))
        ++ (" " ++ "GROUP BY" ++ " " ++ String.intercalate ", " scenarioSelect.group_by_)
        ++ (" " ++ "HAVING" ++ " "
            ++ String.intercalate " AND " (scenarioSelect.having_.map WhereType.to_sql))
        ++ (" " ++ "ORDER BY" ++ " "
            ++ String.intercalate ", " (scenarioSelect.order_by_.map OrderBy.to_sql))
        ++ (" " ++ "LIMIT" ++ " " ++ "10")
        ++ (" " ++ "OFFSET" ++ " " ++ "5")
        ++ (" " ++ ("FOR" ++ " " ++ ((For.update.table ["foo", "bar"]).set_nowait).mode.to_sql
            ++ (if ((For.update.table ["foo", "bar"]).set_nowait).tables.isEmpty then "" else
                  " " ++ "OF" ++ " "
                    ++ String.intercalate ", " ((For.update.table ["foo", "bar"]).set_nowait).tables)
            ++ (if ((For.update.table ["foo", "bar"]).set_nowait).nowait then
                  " " ++ "NOWAIT" else "")))
    ∧ scenarioSelect.to_sql =
        "SELECT DISTINCT ON (fizz, bazz) foo, bar FROM test_table INNER JOIN bar_table ON 1 = 1 LEFT JOIN bazz_table ON 2 = 2 WHERE (foo = bar AND lala = blah) GROUP BY foo, bar HAVING (foo = bar AND lala = blah) ORDER BY bar DESC, foo ASC LIMIT 10 OFFSET 5 FOR UPDATE OF foo, bar NOWAIT" := by
  refine ⟨by decide, by decide, by decide, by decide, by decide, by decide, by decide,
    by decide, ?_, by decide⟩
  exact C2_clause_order.2.2 scenarioSelect "10" "5" ((For.update.table ["foo", "bar"]).set_nowait)
    (by decide) (by decide) (by decide) (by decide) (by decide) (by decide) (by decide) (by decide)

/-- C3: `filter` and `having` append each condition to a list rather than
replacing it; a populated WHERE (or HAVING) clause renders as the keyword
followed by the top-level conditions joined by `" AND "`, with no
enclosing parentheses around the joined list; and the other list-valued
fields (select columns, group-by columns, joins, order-by terms) likewise
append on repeated calls, preserving call order. -/
theorem C3_list_fields_append :
    (∀ (s : Select) (c : WhereType), (s.filter c).where_cl = s.where_cl ++ [c])
    ∧ (∀ (s : Select) (c : WhereType), (s.having c).having_ = s.having_ ++ [c])
    ∧ (∀ s : Select, s.where_cl.isEmpty = false →
        s.to_sql = preWhere s ++ " " ++ "WHERE" ++ " "
          ++ String.intercalate " AND " (s.where_cl.map WhereType.to_sql)
          ++ postWhere s)
    ∧ (∀ s : Select, s.having_.isEmpty = false →
        s.to_sql = preHaving s ++ " " ++ "HAVING" ++ " "
          ++ String.intercalate " AND " (s.having_.map WhereType.to_sql)
          ++ postHaving s)
    ∧ (∀ (s : Select) (cs : List String),
        (s.columns cs).select_type = .Specific (currentColumns s.select_type ++ cs))
    ∧ (∀ (s : Select) (cs : List String), (s.group_by cs).group_by_ = s.group_by_ ++ cs)
    ∧ (∀ (s : Select) (t c : String), (s.join t c).joins = s.joins ++ [⟨.Inner, t, c⟩])
    ∧ (∀ (s : Select) (t c : String), (s.left_join t c).joins = s.joins ++ [⟨.Left, t, c⟩])
    ∧ (∀ (s : Select) (t c : String), (s.right_join t c).joins = s.joins ++ [⟨.Right, t, c⟩])
    ∧ (∀ (s : Select) (t c : String), (s.outer_join t c).joins = s.joins ++ [⟨.Outer, t, c⟩])
    ∧ (∀ (s : Select) (f : String) (o : Ordering),
        (s.order_by f o).order_by_ = s.order_by_ ++ [⟨o, f⟩]) := by
  refine ⟨fun _ _ => rfl, fun _ _ => rfl, fun s hw => ?_, fun s hh => ?_, fun s cs => ?_,
    fun _ _ => rfl, fun _ _ _ => rfl, fun _ _ _ => rfl, fun _ _ _ => rfl, fun _ _ _ => rfl,
    fun _ _ _ => rfl⟩
  · rw [Select.to_sql_decomp]
    simp only [preWhere, postWhere, whereFrag, hw, Bool.false_eq_true, if_false]
    simp [String.append_assoc]
  · rw [Select.to_sql_decomp]
    simp only [preHaving, preWhere, postHaving, havingFrag, hh, Bool.false_eq_true, if_false]
    simp [String.append_assoc]
  · cases h : s.select_type <;> simp [Select.columns, currentColumns, h]

/-- Witness for C3: the WHERE and HAVING rendering clauses applied to a
concrete statement with two filters and two having conditions. -/
theorem C3_list_fields_append_witness :
    ((((Select.from_ "test_table").filter (.Simple "foo == bar")).filter
        (.Simple "bar == bazz")).where_cl.isEmpty = false
      ∧ (((Select.from_ "test_table").filter (.Simple "foo == bar")).filter
          (.Simple "bar == bazz")).to_sql =
        preWhere (((Select.from_ "test_table").filter (.Simple "foo == bar")).filter
            (.Simple "bar == bazz"))
          ++ " " ++ "WHERE" ++ " "
          ++ String.intercalate " AND "
            ((((Select.from_ "test_table").filter (.Simple "foo == bar")).filter
                (.Simple "bar == bazz")).where_cl.map WhereType.to_sql)
          ++ postWhere (((Select.from_ "test_table").filter (.Simple "foo == bar")).filter
              (.Simple "bar == bazz")))
    ∧ ((((Select.from_ "t").having (.Simple "a > 1")).having
          (.Simple "b > 2")).having_.isEmpty = false
      ∧ (((Select.from_ "t").having (.Simple "a > 1")).having (.Simple "b > 2")).to_sql =
        preHaving (((Select.from_ "t").having (.Simple "a > 1")).having (.Simple "b > 2"))
          ++ " " ++ "HAVING" ++ " "
          ++ String.intercalate " AND "
            ((((Select.from_ "t").having (.Simple "a > 1")).having
                (.Simple "b > 2")).having_.map WhereType.to_sql)
          ++ postHaving (((Select.from_ "t").having (.Simple "a > 1")).having
              (.Simple "b > 2")))
    ∧ (((Select.from_ "test_table").filter (.Simple "foo == bar")).filter
        (.Simple "bar == bazz")).to_sql =
        "SELECT * FROM test_table WHERE foo == bar AND bar == bazz" :=
  ⟨⟨by decide, C3_list_fields_append.2.2.1
      (((Select.from_ "test_table").filter (.Simple "foo == bar")).filter
        (.Simple "bar == bazz")) (by decide)⟩,
   ⟨by decide, C3_list_fields_append.2.2.2.1
      (((Select.from_ "t").having (.Simple "a > 1")).having (.Simple "b > 2")) (by decide)⟩,
   by decide⟩

/-- C6: `as_subquery` captures the parenthesized rendering of the
statement at call time, `with_alias` appends `" AS "` and the alias to
that captured string, and the round trip through a FROM target renders
the expected nested query. -/
theorem C6_subquery_capture :
    (∀ s : Select, (s.as_subquery).query = "(" ++ s.to_sql ++ ")")
    ∧ (∀ (sq : Subquery) (a : String), (sq.with_alias a).query = sq.query ++ " AS " ++ a)
    ∧ (Select.from_ ((((Select.from_ "foo").as_subquery).with_alias "x").as_str)).to_sql =
        "SELECT * FROM (SELECT * FROM foo) AS x" :=
  ⟨fun _ => rfl, fun _ _ => rfl, by decide⟩

/-- C7: a union renders as the left side, `" UNION "`, `"ALL "` exactly
when the mode is `All`, then the right side; nested unions compose
left-to-right with no parentheses added around either side. -/
theorem C7_union_rendering :
    (∀ (L R : Type) [ToSQL L] [ToSQL R] (l : L) (r : R) (m : UnionMode),
        (Union.new m l r).to_sql =
          ToSQL.to_sql l ++ " " ++ "UNION" ++ " "
            ++ (if m = UnionMode.All then "ALL" ++ " " else "") ++ ToSQL.to_sql r)
    ∧ ((" " : String) ++ "UNION" ++ " " = " UNION " ∧ ("ALL" : String) ++ " " = "ALL ")
    ∧ ((Union.new .All (Union.new .Simple (Select.from_ "a") (Select.from_ "b"))
          (Select.from_ "c")).to_sql =
        "SELECT * FROM a UNION SELECT * FROM b UNION ALL SELECT * FROM c") := by
  refine ⟨fun L R _ _ l r m => ?_, ⟨rfl, rfl⟩, by decide⟩
  cases m <;> simp [Union.to_sql, Union.new, String.append_assoc]

end Lithium

